import Mathlib

/-!
Verification of the peskas-api permission-scoped query engine.

This file gives a shallow embedding, in Lean 4, of the core of the
peskas-api repository (a governed read-access layer over versioned
parquet snapshots): the permission model and validator
(src/peskas_api/services/permissions.py, models/permissions.py), the
scope resolver (schema/scopes.py, models/params.py), the snapshot
resolver (services/gcs.py), the query builder (services/query.py) and
the dataset endpoint flow (api/endpoints/datasets.py).  Each definition
is translated directly from the named source function.  Theorems at the
end settle the frozen claims C1..C10.
-/

namespace Peskas

/-- A single-quote character as a string (used to build SQL text and
error messages that quote values, as the Python f-strings do). -/
def squo : String := (Char.ofNat 39).toString

/-- The newline character. -/
def nlChar : Char := Char.ofNat 10

/-- Consume a literal from the front of the input, returning the rest. -/
def takeLit : List Char → List Char → Option (List Char)
  | [], rest => some rest
  | _ :: _, [] => none
  | c :: cs, d :: ds => if c = d then takeLit cs ds else none

/-- Python str.lower (the data here is ASCII). -/
def toLowerStr (s : String) : String :=
  String.mk (s.toList.map Char.toLower)

/-- Python str.startswith. -/
def startsWithStr (s pre : String) : Bool :=
  (takeLit pre.toList s.toList).isSome

/-- Python str.endswith. -/
def endsWithStr (s suf : String) : Bool :=
  (takeLit suf.toList.reverse s.toList.reverse).isSome

/-- Python slicing off the last n characters (pattern[:-n]). -/
def dropRightStr (s : String) (n : Nat) : String :=
  String.mk (s.toList.take (s.toList.length - n))

/-- Python str.split on a separator character. -/
def splitOnChar (sep : Char) : List Char → List (List Char)
  | [] => [[]]
  | c :: cs =>
    if c = sep then [] :: splitOnChar sep cs
    else
      match splitOnChar sep cs with
      | [] => [[c]]
      | p :: ps => (c :: p) :: ps

/-- Python str.replace of every single quote with two single quotes
(the SQL path escaping in query_parquet). -/
def escapeQuotes (s : String) : String :=
  String.mk (s.toList.foldr
    (fun c acc =>
      if c = Char.ofNat 39 then Char.ofNat 39 :: Char.ofNat 39 :: acc
      else c :: acc) [])

/-- Left-pad the decimal rendering of a number with zeros to width `w`
(Python date.isoformat / strftime zero-padding). -/
def padNum (w : Nat) (n : Nat) : String :=
  let s := toString n
  if s.length < w then String.mk (List.replicate (w - s.length) (Char.ofNat 48)) ++ s
  else s

/-- Python datetime.date: a calendar date compared lexicographically on
(year, month, day). -/
structure PyDate where
  year : Nat
  month : Nat
  day : Nat
deriving DecidableEq

/-- Strict comparison of Python dates (lexicographic on year, month, day). -/
def dateLt (a b : PyDate) : Bool :=
  if a.year < b.year then true
  else if b.year < a.year then false
  else if a.month < b.month then true
  else if b.month < a.month then false
  else decide (a.day < b.day)

/-- Python date.isoformat(): YYYY-MM-DD with zero padding. -/
def isoDate (d : PyDate) : String :=
  padNum 4 d.year ++ "-" ++ padNum 2 d.month ++ "-" ++ padNum 2 d.day

/-- A Python datetime value (second precision, as serialized by the API). -/
structure PyDateTime where
  year : Nat
  month : Nat
  day : Nat
  hour : Nat
  minute : Nat
  second : Nat
deriving DecidableEq

/-- strftime of a datetime column in get_as_records. -/
def isoDateTime (d : PyDateTime) : String :=
  padNum 4 d.year ++ "-" ++ padNum 2 d.month ++ "-" ++ padNum 2 d.day ++ "T" ++
  padNum 2 d.hour ++ ":" ++ padNum 2 d.minute ++ ":" ++ padNum 2 d.second

/-- models/enums.py DatasetStatus. -/
inductive DatasetStatus where
  | raw
  | validated
deriving DecidableEq

/-- The .value of the string enum DatasetStatus. -/
def DatasetStatus.value : DatasetStatus → String
  | .raw => "raw"
  | .validated => "validated"

/-- models/enums.py ResponseFormat. -/
inductive ResponseFormat where
  | csv
  | json
deriving DecidableEq

/-- models/params.py DatasetQueryParams.  Exactly the fields declared by
the pydantic model: country, status, date_from, date_to, gaul_1,
catch_taxon, scope, limit, format.  The model declares NO gaul_2,
survey_id or fields attribute (pydantic ignores unknown query keys, and
attribute access on a missing field raises AttributeError).  The pydantic
field validator normalizes country to lowercase at construction; concrete
instances below use lowercase countries accordingly. -/
structure DatasetQueryParams where
  country : String
  status : DatasetStatus
  date_from : Option PyDate
  date_to : Option PyDate
  gaul_1 : Option String
  catch_taxon : Option String
  scope : Option String
  limit : Option Int
  format : ResponseFormat
deriving DecidableEq

/-- models/permissions.py APIKeyPermissions.  The pydantic validator
normalizes the whitelist entries to lowercase at load time; concrete
instances below use lowercase entries accordingly. -/
structure APIKeyPermissions where
  allow_all : Bool
  countries : Option (List String)
  statuses : Option (List String)
  date_from : Option PyDate
  date_to : Option PyDate
  gaul_1 : Option (List String)
  gaul_2 : Option (List String)
  catch_taxon : Option (List String)
  survey_id : Option (List String)
  endpoints : Option (List String)
  max_limit : Option Int
deriving DecidableEq

/-- A permission set with every restriction absent and allow_all false
(the pydantic field defaults). -/
def noPermissions : APIKeyPermissions :=
  ⟨false, none, none, none, none, none, none, none, none, none, none⟩

/-- models/permissions.py APIKeyConfig. -/
structure APIKeyConfig where
  name : String
  description : String
  permissions : APIKeyPermissions
  enabled : Bool
deriving DecidableEq

/-- schema/scopes.py SCOPE_DEFINITIONS: the full static table, in source
order (Python dicts preserve insertion order).  Note the defined scope
names for landings are core, detailed, summary and trip; there is no
trip_info scope. -/
def scopeDefinitions : List (String × List (String × List String)) :=
  [("landings",
    [("core",
      ["trip_id", "landing_date", "gaul_1_code", "gaul_1_name",
       "catch_taxon", "catch_kg"]),
     ("detailed",
      ["trip_id", "landing_date", "gaul_1_code", "gaul_1_name",
       "catch_taxon", "catch_kg", "gear", "vessel_type", "n_fishers",
       "trip_duration_hrs", "catch_price", "length_cm"]),
     ("summary",
      ["landing_date", "catch_taxon", "catch_kg"]),
     ("trip",
      ["trip_id", "landing_date", "gaul_1_code", "n_fishers",
       "trip_duration_hrs", "gear", "vessel_type"])])]

/-- Association-list lookup (models Python dict.get). -/
def lookupS {α : Type} : List (String × α) → String → Option α
  | [], _ => none
  | (k, v) :: rest, key => if k = key then some v else lookupS rest key

/-- schema/scopes.py get_scope_columns. -/
def getScopeColumns (scope : String) (datasetType : String) : Option (List String) :=
  let typeScopes := (lookupS scopeDefinitions datasetType).getD []
  lookupS typeScopes scope

/-- schema/scopes.py get_available_scopes. -/
def getAvailableScopes (datasetType : String) : List String :=
  ((lookupS scopeDefinitions datasetType).getD []).map (fun p => p.1)

/-- models/params.py DatasetQueryParams.get_columns: resolve the column
list from the scope parameter; a ValueError (here Except.error with the
exact message) if the scope is not found.  The `if self.scope` guard is
Python truthiness: none and the empty string both skip resolution. -/
def DatasetQueryParams.getColumns (params : DatasetQueryParams)
    (datasetType : String) : Except String (Option (List String)) :=
  match params.scope with
  | some s =>
    if s ≠ "" then
      match getScopeColumns s datasetType with
      | some cols => .ok (some cols)
      | none =>
        .error ("Invalid scope " ++ squo ++ s ++ squo ++ ". Available scopes: " ++
          String.intercalate ", " (getAvailableScopes datasetType))
    else .ok none
  | none => .ok none

/-- schema/dataset_config.py DatasetType. -/
structure DatasetType where
  name : String
  endpoint : String
  description : String
  date_column : String
deriving DecidableEq

/-- schema/dataset_config.py DATASET_TYPES: the single landings entry. -/
def landingsDataset : DatasetType :=
  ⟨"landings", "landings", "Fish landing records with catch and trip information",
   "landing_date"⟩

/-- core/config.py Settings: the fields the core reads, with their
declared defaults. -/
structure Settings where
  default_date_column : String
  max_rows_default : Int
  max_rows_limit : Int
  temp_dir : String
deriving DecidableEq

/-- The defaults declared in core/config.py. -/
def defaultSettings : Settings :=
  ⟨"landing_date", 100000, 1000000, "/tmp/peskas_cache"⟩

/-- Result of PermissionValidator.validate_query_params: normal return,
an HTTPException 403 carrying the detail string, or a crash.  The
attrErr constructor models the Python AttributeError raised when the
validator reads an attribute (gaul_2, survey_id) that DatasetQueryParams
does not define. -/
inductive VResult where
  | ok
  | forbidden (detail : String)
  | attrErr (attr : String)
deriving DecidableEq

/-- services/permissions.py PermissionValidator._is_endpoint_allowed. -/
def isEndpointAllowed (endpoints : List String) (endpointPath : String) : Bool :=
  endpoints.any (fun pat =>
    if endsWithStr pat "*" then startsWithStr endpointPath (dropRightStr pat 1)
    else pat == endpointPath)

/-- services/permissions.py PermissionValidator._validate_date_range:
returns the 403 detail if a date bound violates the permissions, none
otherwise. -/
def validateDateRange (perms : APIKeyPermissions)
    (requestedFrom requestedTo : Option PyDate) : Option String :=
  let toCheck : Option String :=
    match perms.date_to, requestedTo with
    | some pt, some rt =>
      if dateLt pt rt then
        some ("Access denied: Your API key cannot query data after " ++
          isoDate pt ++ ". Requested: " ++ isoDate rt)
      else none
    | _, _ => none
  match perms.date_from with
  | some pf =>
    match requestedFrom with
    | none =>
      some ("Access denied: Your API key requires date_from >= " ++ isoDate pf)
    | some rf =>
      if dateLt rf pf then
        some ("Access denied: Your API key cannot query data before " ++
          isoDate pf ++ ". Requested: " ++ isoDate rf)
      else toCheck
  | none => toCheck

/-- services/permissions.py PermissionValidator._validate_filter_value:
returns the 403 detail if the value is outside the allowed list. -/
def validateFilterValue (requestedValue : String)
    (allowedValues : Option (List String)) (humanName : String) : Option String :=
  match allowedValues with
  | some vs =>
    if toLowerStr requestedValue ∈ vs then none
    else
      some ("Access denied: Your API key cannot filter by " ++ humanName ++
        " " ++ squo ++ requestedValue ++ squo ++ ". Allowed values: " ++
        String.intercalate ", " vs)
  | none => none

/-- The tail of validate_query_params from the gaul_1 check on.  After
the gaul_1 check the source reads params.gaul_2, an attribute the
DatasetQueryParams pydantic model does not define, so Python raises
AttributeError there; every later check (gaul_2, catch_taxon, survey_id,
limit against max_limit) is unreachable for these inputs. -/
def validateFromGaul1 (perms : APIKeyPermissions)
    (params : DatasetQueryParams) : VResult :=
  match params.gaul_1 with
  | some v =>
    match validateFilterValue v perms.gaul_1 "GAUL level 1 code" with
    | some detail => .forbidden detail
    | none => .attrErr "gaul_2"
  | none => .attrErr "gaul_2"

/-- The date-range step of validate_query_params: the range is only
validated when at least one bound was supplied. -/
def validateFromDates (perms : APIKeyPermissions)
    (params : DatasetQueryParams) : VResult :=
  if params.date_from.isSome || params.date_to.isSome then
    match validateDateRange perms params.date_from params.date_to with
    | some detail => .forbidden detail
    | none => validateFromGaul1 perms params
  else validateFromGaul1 perms params

/-- The status step of validate_query_params. -/
def validateFromStatus (perms : APIKeyPermissions)
    (params : DatasetQueryParams) : VResult :=
  match perms.statuses with
  | some ss =>
    if toLowerStr params.status.value ∉ ss then
      .forbidden ("Access denied: Your API key cannot access " ++ squo ++
        params.status.value ++ squo ++ " data. Allowed statuses: " ++
        String.intercalate ", " ss)
    else validateFromDates perms params
  | none => validateFromDates perms params

/-- The country step of validate_query_params. -/
def validateFromCountry (perms : APIKeyPermissions)
    (params : DatasetQueryParams) : VResult :=
  match perms.countries with
  | some cs =>
    if toLowerStr params.country ∉ cs then
      .forbidden ("Access denied: Your API key cannot access country " ++
        squo ++ params.country ++ squo ++ ". Allowed countries: " ++
        String.intercalate ", " cs)
    else validateFromStatus perms params
  | none => validateFromStatus perms params

/-- services/permissions.py PermissionValidator.validate_query_params,
applied (as everywhere in the repository) to a models/params.py
DatasetQueryParams.  The checks run in source order and short-circuit on
the first violation: allow_all, endpoint patterns, countries, statuses,
date range, gaul_1, then the AttributeError at the missing gaul_2
attribute (see validateFromGaul1).  The endpoint guard mirrors the
Python truthiness test on endpoint_path. -/
def validateQueryParams (perms : APIKeyPermissions)
    (params : DatasetQueryParams) (endpointPath : Option String) : VResult :=
  if perms.allow_all then .ok
  else
    match endpointPath, perms.endpoints with
    | some p, some eps =>
      if p ≠ "" ∧ ¬ isEndpointAllowed eps p then
        .forbidden "Access denied: Your API key does not have access to this endpoint"
      else validateFromCountry perms params
    | _, _ => validateFromCountry perms params

/-- Error raised by QueryService.query_parquet: a ValueError or a
FileNotFoundError (the endpoint maps these to 400 and 404). -/
inductive QErr where
  | valueError (msg : String)
  | fileNotFound (msg : String)
deriving DecidableEq

/-- A value bound as a DuckDB query parameter. -/
inductive QVal where
  | vdate (d : PyDate)
  | vstr (s : String)
deriving DecidableEq

/-- A character allowed by the column-name allow-list [a-zA-Z0-9_-]. -/
def isColChar (c : Char) : Bool :=
  c.isAlpha || c.isDigit || c = Char.ofNat 95 || c = Char.ofNat 45

/-- services/query.py QueryService._validate_column_name:
re.match of the allow-list pattern (caret)[a-zA-Z0-9_-]+(dollar).
Python dollar also matches just before one trailing newline, so a name
with a single trailing newline after allowed characters matches too. -/
def validColumnName (s : String) : Bool :=
  let cs := s.toList
  let cs := if cs.getLast? = some nlChar then cs.dropLast else cs
  cs ≠ [] && cs.all isColChar

/-- services/query.py QueryService._sanitize_columns: the filtering loop
keeping only columns that pass the allow-list and exist in the file
schema (others are dropped with a logged warning). -/
def sanitizeColumns : List String → List String → List String
  | [], _ => []
  | c :: cs, available =>
    if validColumnName c then
      if available.contains c then c :: sanitizeColumns cs available
      else sanitizeColumns cs available
    else sanitizeColumns cs available

/-- The local parquet store visible to the query service: a map from a
local path to the file column schema (what _get_columns reads). -/
def ParquetStore : Type := List (String × List String)

/-- The column-selection block at the top of query_parquet: for a truthy
columns argument, read the file schema (_get_columns; a ValueError if
the file cannot be read), sanitize, and fall back to star when nothing
survives; otherwise select star. -/
def computeColExpr (fs : ParquetStore) (parquetPath : String)
    (columns : Option (List String)) : Except QErr String :=
  match columns with
  | some cs =>
    if cs ≠ [] then
      match lookupS fs parquetPath with
      | none => .error (.valueError ("Cannot read parquet file schema: " ++ parquetPath))
      | some available =>
        let valid := sanitizeColumns cs available
        if valid = [] then .ok "*"
        else .ok (String.intercalate ", " (valid.map (fun c => "\"" ++ c ++ "\"")))
    else .ok "*"
  | none => .ok "*"

/-- The effective date column: Python `date_column or default`, where an
empty string is falsy. -/
def effDateColumn (st : Settings) (dateColumn : Option String) : String :=
  match dateColumn with
  | some s => if s = "" then st.default_date_column else s
  | none => st.default_date_column

/-- The effective row limit: Python
min(limit or max_rows_default, max_rows_limit), where a zero limit is
falsy (a limit below 1 has already raised before this point). -/
def effectiveLimit (st : Settings) (limit : Option Int) : Int :=
  min (match limit with
        | none => st.max_rows_default
        | some l => if l = 0 then st.max_rows_default else l)
      st.max_rows_limit

/-- One conditions/params append pair in query_parquet. -/
def condStep {α : Type} (cond : String) (toVal : α → QVal) (o : Option α)
    (cp : List String × List QVal) : List String × List QVal :=
  match o with
  | some v => (cp.1 ++ [cond], cp.2 ++ [toVal v])
  | none => cp

/-- The six conditions/params appends of query_parquet, in source order:
date_from, date_to, gaul_1, gaul_2, catch_taxon, survey_id.  Every
predicate value goes into the bound-parameter list, never into the
SQL text. -/
def buildConds (edc : String) (dateFrom dateTo : Option PyDate)
    (gaul1 gaul2 catchTaxon surveyId : Option String) :
    List String × List QVal :=
  condStep ("\"survey_id\" = ?") QVal.vstr surveyId
    (condStep ("\"catch_taxon\" = ?") QVal.vstr catchTaxon
      (condStep ("\"gaul_2_code\" = ?") QVal.vstr gaul2
        (condStep ("\"gaul_1_code\" = ?") QVal.vstr gaul1
          (condStep ("\"" ++ edc ++ "\" <= ?") QVal.vdate dateTo
            (condStep ("\"" ++ edc ++ "\" >= ?") QVal.vdate dateFrom ([], []))))))

/-- services/query.py QueryService.query_parquet up to the DuckDB
execute call: builds the SQL text and the bound-parameter list, or the
raised error, following the source step by step: column selection (with
schema validation), file-existence check, base SELECT with the
quote-escaped path, date-column allow-list validation, WHERE
construction, limit validation and clamping.  The returned pair is what
self._conn.execute(query, params) receives. -/
def queryParquetBuild (st : Settings) (fs : ParquetStore) (parquetPath : String)
    (dateColumn : Option String) (dateFrom dateTo : Option PyDate)
    (gaul1 gaul2 catchTaxon surveyId : Option String)
    (columns : Option (List String)) (limit : Option Int) :
    Except QErr (String × List QVal) :=
  match computeColExpr fs parquetPath columns with
  | .error e => .error e
  | .ok colExpr =>
    if (lookupS fs parquetPath).isNone then
      .error (.fileNotFound ("Parquet file not found: " ++ parquetPath))
    else
      let escapedPath := escapeQuotes parquetPath
      let base := "SELECT " ++ colExpr ++ " FROM read_parquet(" ++ squo ++
        escapedPath ++ squo ++ ")"
      let edc := effDateColumn st dateColumn
      if ¬ validColumnName edc then
        .error (.valueError ("Invalid date column name: " ++ edc))
      else
        let cp := buildConds edc dateFrom dateTo gaul1 gaul2 catchTaxon surveyId
        let q1 := if cp.1 ≠ [] then base ++ " WHERE " ++ String.intercalate " AND " cp.1
          else base
        match limit with
        | some l =>
          if l < 1 then .error (.valueError ("Limit must be >= 1, got " ++ toString l))
          else .ok (q1 ++ " LIMIT " ++ toString (effectiveLimit st limit), cp.2)
        | none => .ok (q1 ++ " LIMIT " ++ toString (effectiveLimit st limit), cp.2)

/-- A Python float value: finite, NaN, or a signed infinity. -/
inductive PyFloat where
  | fin (q : ℚ)
  | nan
  | inf
  | ninf
deriving DecidableEq

/-- A cell of the fetched dataframe. -/
inductive Cell where
  | null
  | flt (f : PyFloat)
  | intv (n : Int)
  | strv (s : String)
  | dtv (d : PyDateTime)
deriving DecidableEq

/-- math.isnan(value) or math.isinf(value) on a float cell. -/
def isBadFloat : Cell → Bool
  | .flt .nan => true
  | .flt .inf => true
  | .flt .ninf => true
  | _ => false

/-- The dataframe returned by relation.fetchdf(): named columns, each
flagged with whether pandas exposes the .dt accessor on it (datetime
dtype), and the rows in column order. -/
structure DataFrame where
  cols : List (String × Bool)
  rows : List (List Cell)

/-- The per-column datetime conversion in get_as_records: for a column
with the .dt accessor, strftime renders each datetime value as an
ISO-8601 string. -/
def convCell (isDt : Bool) (c : Cell) : Cell :=
  if isDt then
    match c with
    | .dtv d => .strv (isoDateTime d)
    | x => x
  else c

/-- The df.replace step of get_as_records, per its stated purpose:
replace NaN, Infinity and -Infinity with None for JSON serialization. -/
def replaceNonFinite : Cell → Cell
  | .flt .nan => .null
  | .flt .inf => .null
  | .flt .ninf => .null
  | x => x

/-- The final safety pass of get_as_records over every record value:
isinstance float and (isnan or isinf) becomes None. -/
def finalPassCell : Cell → Cell
  | .flt .nan => .null
  | .flt .inf => .null
  | .flt .ninf => .null
  | x => x

/-- services/query.py QueryService.get_as_records after the fetch: empty
result gives an empty list; otherwise datetime columns are rendered as
ISO-8601 strings, non-finite floats replaced with null, rows zipped with
column names into records, and the final safety pass applied to every
value. -/
def getAsRecords (df : DataFrame) : List (List (String × Cell)) :=
  if df.rows.isEmpty then []
  else
    let flags := df.cols.map (fun c => c.2)
    let names := df.cols.map (fun c => c.1)
    let rows1 := df.rows.map (fun r => List.zipWith convCell flags r)
    let rows2 := rows1.map (fun r => r.map replaceNonFinite)
    let records := rows2.map (fun r => names.zip r)
    records.map (fun rec => rec.map (fun kv => (kv.1, finalPassCell kv.2)))

/-- The header line of pandas to_csv with index=False: the column names
joined by commas and a newline (what pd.DataFrame(columns=cs).to_csv
emits for an empty frame). -/
def csvHeaderLine (cols : List String) : String :=
  String.intercalate "," cols ++ nlChar.toString

/-- A plain rendering of one cell for the CSV body (models the pandas
to_csv value formatting at the external-library boundary; no claim
depends on it). -/
def showCell : Cell → String
  | .null => ""
  | .flt (.fin q) => toString q
  | .flt .nan => ""
  | .flt .inf => "inf"
  | .flt .ninf => "-inf"
  | .intv n => toString n
  | .strv s => s
  | .dtv d => isoDateTime d

/-- The CSV body of a non-empty dataframe: header row then data rows
(models df.to_csv(index=False) at the external-library boundary). -/
def csvBody (df : DataFrame) : String :=
  csvHeaderLine (df.cols.map (fun c => c.1)) ++
    String.join (df.rows.map (fun r =>
      String.intercalate "," (r.map showCell) ++ nlChar.toString))

/-- services/query.py QueryService.stream_csv after the fetch: an empty
result yields a header-only CSV when the columns argument is truthy (the
caller-requested column list, before sanitization) and an empty body
otherwise; a non-empty result yields the full CSV. -/
def streamCsvRender (df : DataFrame) (columns : Option (List String)) : String :=
  if df.rows.isEmpty then
    match columns with
    | some cs => if cs ≠ [] then csvHeaderLine cs else ""
    | none => ""
  else csvBody df

/-- A word character for the Python regex token backslash-w (letters,
digits, underscore; the filenames involved are ASCII). -/
def isWordChar (c : Char) : Bool :=
  c.isAlphanum || c = Char.ofNat 95

/-- A character of the regex class [a-f0-9]. -/
def isHexChar (c : Char) : Bool :=
  c.isDigit || (Char.ofNat 97 ≤ c && c ≤ Char.ofNat 102)

/-- Read exactly 14 digits from the front, returning their value and the
rest (the captured group of the filename pattern). -/
def parseDigits14 (rest : List Char) : Option (Nat × List Char) :=
  let ds := rest.take 14
  if ds.length = 14 && ds.all Char.isDigit then
    some (ds.foldl (fun acc c => acc * 10 + (c.toNat - 48)) 0, rest.drop 14)
  else none

/-- Match the final part of the filename pattern: two underscores, one
any character (the regex dot, which excludes newline), then the literal
parquet; re.match allows trailing characters after it. -/
def matchTail (rest : List Char) : Bool :=
  match takeLit ("__".toList) rest with
  | some r2 =>
    match r2 with
    | c :: r3 => if c ≠ nlChar then (takeLit ("parquet".toList) r3).isSome else false
    | [] => false
  | none => false

/-- Match the greedy [a-f0-9]+ run followed by the pattern tail, trying
the longest run first as the Python engine does. -/
def matchHexThen (rest : List Char) : Bool :=
  let m := (rest.takeWhile isHexChar).length
  (List.range m).any (fun i => matchTail (rest.drop (m - i)))

/-- Match the part of the pattern after the backslash-w-plus run: two
underscores, the 14-digit timestamp capture, an underscore, the hex hash
and the tail. -/
def matchAfterW (rest : List Char) : Option Nat :=
  match takeLit ("__".toList) rest with
  | none => none
  | some r1 =>
    match parseDigits14 r1 with
    | none => none
    | some (t, r2) =>
      match takeLit ("_".toList) r2 with
      | none => none
      | some r3 => if matchHexThen r3 then some t else none

/-- services/gcs.py GCSService._parse_timestamp_from_filename: re.match
of the configured pattern trips-(word run)__(14 digits)_(hex hash)__
(any char)parquet against the filename, returning the captured timestamp
as an integer.  The greedy word run is tried from longest to shortest,
exactly the Python backtracking order, so the capture agrees with
re.match. -/
def parseTimestampName (filename : String) : Option Nat :=
  match takeLit ("trips-".toList) filename.toList with
  | none => none
  | some rest =>
    let m := (rest.takeWhile isWordChar).length
    (List.range m).findSome? (fun i => matchAfterW (rest.drop (m - i)))

/-- blob.name.split on slash, last component. -/
def lastPart (s : String) : String :=
  String.mk ((splitOnChar (Char.ofNat 47) s.toList).getLastD s.toList)

/-- The remote bucket and the local cache visible to GCSService: blob
names mapped to their file schemas, and already-downloaded local paths
mapped to theirs. -/
structure GcsEnv where
  bucketName : String
  blobs : List (String × List String)
  localFiles : List (String × List String)
deriving DecidableEq

/-- The filtering loop of _get_latest_file: keep the blobs under the
folder whose filename matches the versioned pattern with a truthy
timestamp, as (timestamp, filename, full path) triples in listing
order. -/
def versionedFiles (blobs : List (String × List String)) (folder : String) :
    List (Nat × String × String) :=
  (blobs.filter (fun b => startsWithStr b.1 folder)).filterMap (fun b =>
    let filename := lastPart b.1
    match parseTimestampName filename with
    | some t => if t ≠ 0 then some (t, filename, b.1) else none
    | none => none)

/-- Python tuple comparison on (timestamp, filename, path): strict
lexicographic greater-than. -/
def tripleGt (a b : Nat × String × String) : Bool :=
  if b.1 < a.1 then true
  else if a.1 < b.1 then false
  else if b.2.1 < a.2.1 then true
  else if a.2.1 < b.2.1 then false
  else decide (b.2.2 < a.2.2)

/-- Stable insertion into a descending-sorted list (equal elements keep
their original relative order, as Python list.sort does). -/
def insertDesc (x : Nat × String × String) :
    List (Nat × String × String) → List (Nat × String × String)
  | [] => [x]
  | y :: ys => if tripleGt x y then x :: y :: ys else y :: insertDesc x ys

/-- versioned_files.sort(reverse=True): descending sort by the tuple
order. -/
def sortDescTriples (l : List (Nat × String × String)) :
    List (Nat × String × String) :=
  l.foldr insertDesc []

/-- services/gcs.py GCSService._get_latest_file: list the blobs under
the folder, keep the pattern-matching versioned files, fail with
DataNotFoundError if none, else sort descending and return the full
path of the first (greatest-timestamp) entry. -/
def getLatestFile (env : GcsEnv) (folder : String) : Except String String :=
  let vf := versionedFiles env.blobs folder
  match sortDescTriples vf with
  | [] => .error ("No data files found in gs://" ++ env.bucketName ++ "/" ++ folder)
  | v :: _ => .ok v.2.2

/-- services/gcs.py GCSService.build_object_path: the path template
country-slash-status-slash with the country lowercased. -/
def buildObjectPath (country : String) (status : DatasetStatus) : String :=
  toLowerStr country ++ "/" ++ status.value ++ "/"

/-- The deterministic cache path of download_parquet: temp_dir slash
country_status_timestamp dot parquet, with the timestamp re-parsed from
the resolved filename (a missing timestamp renders as the string None,
as the Python f-string would). -/
def localPathFor (country : String) (status : DatasetStatus) (latest : String) : String :=
  defaultSettings.temp_dir ++ "/" ++ country ++ "_" ++ status.value ++ "_" ++
    (match parseTimestampName (lastPart latest) with
     | some t => toString t
     | none => "None") ++ ".parquet"

/-- services/gcs.py GCSService.download_parquet: resolve the latest
versioned file for (country, status), build the deterministic cache path
keyed by country, status and timestamp, reuse the local copy when it
exists, otherwise download it.  The returned flag records whether a
download happened (false on a cache hit). -/
def downloadParquet (env : GcsEnv) (country : String) (status : DatasetStatus) :
    Except String (String × GcsEnv × Bool) :=
  match getLatestFile env (buildObjectPath country status) with
  | .error _ => .error ("No data found for " ++ country ++ "/" ++ status.value)
  | .ok latest =>
    if (lookupS env.localFiles (localPathFor country status latest)).isSome then
      .ok (localPathFor country status latest, env, false)
    else
      match lookupS env.blobs latest with
      | some schema =>
        .ok (localPathFor country status latest,
          ⟨env.bucketName, env.blobs,
           env.localFiles ++ [(localPathFor country status latest, schema)]⟩, true)
      | none => .error ("No data found for " ++ country ++ "/" ++ status.value)

/-- The response of the landings dataset endpoint, up to query
execution: a streamed CSV or a JSON response carrying the SQL text and
bound parameters that the query service executes, or an HTTPException
with its status code and detail. -/
inductive HResp where
  | csvOk (filename : String) (sql : String) (binds : List QVal)
  | jsonOk (sql : String) (binds : List QVal)
  | herr (status : Nat) (detail : String)
deriving DecidableEq

/-- api/endpoints/datasets.py get_dataset for the landings dataset type:
authenticate (the _auth argument is bound but never consulted beyond
authentication — no permission validation is performed), download the
parquet snapshot (404 on DataNotFoundError), resolve scope columns (400
on ValueError), then build and run the query.  The call into the query
service passes date_column, date_from, date_to, gaul_1, catch_taxon,
columns and limit only; gaul_2 and survey_id are left at their none
defaults because DatasetQueryParams carries no such fields. -/
def getDatasetLandings (_auth : APIKeyConfig) (env : GcsEnv)
    (params : DatasetQueryParams) : HResp × GcsEnv :=
  match downloadParquet env params.country params.status with
  | .error msg => (.herr 404 msg, env)
  | .ok (parquetPath, env2, _) =>
    match params.getColumns landingsDataset.name with
    | .error msg => (.herr 400 msg, env2)
    | .ok columns =>
      match queryParquetBuild defaultSettings env2.localFiles parquetPath
          (some landingsDataset.date_column) params.date_from params.date_to
          params.gaul_1 none params.catch_taxon none columns params.limit with
      | .error (.valueError m) => (.herr 400 m, env2)
      | .error (.fileNotFound m) => (.herr 404 m, env2)
      | .ok (sql, binds) =>
        if params.format = ResponseFormat.json then (.jsonOk sql binds, env2)
        else
          (.csvOk (landingsDataset.name ++ "_" ++ params.country ++ "_" ++
            params.status.value ++ ".csv") sql binds, env2)

/-- Decidable equality for Except results. -/
instance exceptDecEq {e a : Type} [DecidableEq e] [DecidableEq a] :
    DecidableEq (Except e a) := fun x y =>
  match x, y with
  | .ok u, .ok v => if h : u = v then isTrue (by rw [h]) else isFalse (by simp [h])
  | .error u, .error v => if h : u = v then isTrue (by rw [h]) else isFalse (by simp [h])
  | .ok _, .error _ => isFalse (by simp)
  | .error _, .ok _ => isFalse (by simp)

/-- The restricted test credential of tests/conftest.py: a whitelist of
the single country zanzibar, everything else at the defaults. -/
def restrictedPerms : APIKeyPermissions :=
  { noPermissions with countries := some ["zanzibar"] }

/-- A request for country tls with every optional parameter at its
default (the test_restricted_key_denied_country request). -/
def tlsParams : DatasetQueryParams :=
  ⟨"tls", .validated, none, none, none, none, none, none, .csv⟩

/-- A bucket holding one versioned snapshot for tls/validated. -/
def tlsEnv : GcsEnv :=
  ⟨"peskas-bucket",
   [("tls/validated/trips-validated__20250101000000_abc123__.parquet",
     ["trip_id", "landing_date"])],
   []⟩

/-- The date-restricted test credential of tests/conftest.py (a
permission floor of 2025-01-01 with no other restriction; the date_to
ceiling is irrelevant to the claims below). -/
def dateFloorPerms : APIKeyPermissions :=
  { noPermissions with date_from := some ⟨2025, 1, 1⟩ }

/-- A zanzibar request carrying no date bound at all. -/
def noDatesParams : DatasetQueryParams :=
  ⟨"zanzibar", .validated, none, none, none, none, none, none, .csv⟩

/-- The admin credential: allow_all true. -/
def adminPerms : APIKeyPermissions :=
  { noPermissions with allow_all := true }

/-- A bucket holding one versioned snapshot for zanzibar/validated. -/
def zanzibarEnv : GcsEnv :=
  ⟨"peskas-bucket",
   [("zanzibar/validated/trips-validated__20250201000000_bbb222__.parquet",
     ["trip_id", "landing_date"])],
   []⟩

/-- The limit check at the tail of validate_query_params
(services/permissions.py): it fires only when the request carries a
limit and the permissions carry a max_limit, shown here in isolation
(for DatasetQueryParams inputs the enclosing validator raises
AttributeError at the missing gaul_2 attribute before reaching it). -/
def limitCheck (perms : APIKeyPermissions) (limit : Option Int) : Option String :=
  match limit, perms.max_limit with
  | some l, some ml =>
    if ml < l then
      some ("Access denied: Your API key" ++ squo ++ "s maximum limit is " ++
        toString ml ++ ". Requested: " ++ toString l)
    else none
  | _, _ => none

/-- The spec scenario folder: two versioned snapshots for
zanzibar/validated with timestamps 20250101000000 and 20250201000000. -/
def twoSnapshotsEnv : GcsEnv :=
  ⟨"peskas-bucket",
   [("zanzibar/validated/trips-validated__20250101000000_aaa111__.parquet",
     ["trip_id", "landing_date"]),
    ("zanzibar/validated/trips-validated__20250201000000_bbb222__.parquet",
     ["trip_id", "landing_date"])],
   []⟩

/-- The same bucket after the first resolve of zanzibar/validated has
cached the newest snapshot locally. -/
def twoSnapshotsEnvCached : GcsEnv :=
  ⟨"peskas-bucket",
   [("zanzibar/validated/trips-validated__20250101000000_aaa111__.parquet",
     ["trip_id", "landing_date"]),
    ("zanzibar/validated/trips-validated__20250201000000_bbb222__.parquet",
     ["trip_id", "landing_date"])],
   [("/tmp/peskas_cache/zanzibar_validated_20250201000000.parquet",
     ["trip_id", "landing_date"])]⟩

/-- A one-column dataframe whose single value is a float NaN. -/
def nanFrame : DataFrame :=
  ⟨[("x", false)], [[Cell.flt PyFloat.nan]]⟩

/-- An empty query result (no rows). -/
def emptyFrame : DataFrame :=
  ⟨[("trip_id", false), ("landing_date", true)], []⟩

/-- A JSON request supplying all four filter dimensions the request
model carries.  A request URL additionally carrying gaul_2=16961 and
survey_id=survey_001 parses to these same params, because pydantic
ignores query keys the model does not declare. -/
def allFiltersParams : DatasetQueryParams :=
  ⟨"zanzibar", .validated, some ⟨2025, 1, 1⟩, some ⟨2025, 2, 28⟩,
   some "1696", some "SKJ", none, none, .json⟩

end Peskas

namespace Peskas

/-- Claim C1.  The permission validator, given the restricted credential
(countries = [zanzibar]) and a request for country tls, would deny with
a 403 citing the countries dimension — but the landings endpoint
get_dataset never invokes the Permission Validator: with the very same
credential and request it proceeds through the Snapshot Resolver and
Query Engine and returns a 200 CSV response, so no AuthorizationDenied
outcome occurs.  This contradicts the claim (and the repository's own
test_restricted_key_denied_country). -/
theorem c1_dataset_request_bypasses_permission_validator :
    validateQueryParams restrictedPerms tlsParams (some "/api/v1/data/landings") =
      VResult.forbidden ("Access denied: Your API key cannot access country " ++
        squo ++ "tls" ++ squo ++ ". Allowed countries: zanzibar") ∧
    (getDatasetLandings ⟨"Test Restricted Key", "", restrictedPerms, true⟩
        tlsEnv tlsParams).1 =
      HResp.csvOk "landings_tls_validated.csv"
        ("SELECT * FROM read_parquet(" ++ squo ++
          "/tmp/peskas_cache/tls_validated_20250101000000.parquet" ++ squo ++
          ") LIMIT 100000")
        [] := by
  constructor
  · decide
  · decide

/-- Claim C2.  With permissions.date_from set and a request supplying
neither date bound, validate_query_params does not reject with an
authorization denial: the guard skips _validate_date_range entirely when
both bounds are absent (the run then dies at the missing gaul_2
attribute, not with a 403).  By contrast, the same permissions with a
date_to-only request do reach the missing-date_from rejection, showing
the asymmetry introduced by the guard. -/
theorem c2_unbounded_request_skips_date_floor :
    validateQueryParams dateFloorPerms noDatesParams none = VResult.attrErr "gaul_2" ∧
    validateQueryParams dateFloorPerms
        { noDatesParams with date_to := some ⟨2025, 6, 1⟩ } none =
      VResult.forbidden "Access denied: Your API key requires date_from >= 2025-01-01" := by
  constructor
  · decide
  · decide

/-- Claim C3.  There is no trip_info scope for the landings dataset:
SCOPE_DEFINITIONS defines core, detailed, summary and trip only, so
get_scope_columns returns None and DatasetQueryParams.get_columns raises
the ValueError listing the available scopes (the endpoint maps it to a
400), contradicting the claim and the repository's own
test_scope_parsing and the scope field documentation. -/
theorem c3_trip_info_scope_does_not_resolve :
    getScopeColumns "trip_info" "landings" = none ∧
    DatasetQueryParams.getColumns
        ⟨"zanzibar", .validated, none, none, none, none, some "trip_info", none, .csv⟩
        "landings" =
      Except.error ("Invalid scope " ++ squo ++ "trip_info" ++ squo ++
        ". Available scopes: core, detailed, summary, trip") := by
  constructor
  · decide
  · decide

set_option maxRecDepth 10000 in
/-- Claim C4.  A dataset request cannot contribute a gaul_2 or survey_id
predicate: DatasetQueryParams declares no such fields and get_dataset
passes none for both when calling the query service.  Concretely, the
request carrying every filter the model accepts (a URL additionally
carrying gaul_2 and survey_id values parses to the same params) executes
a WHERE clause with only the date, gaul_1_code and catch_taxon
predicates; and in general the conditions the endpoint call can build
are limited to those four, so no gaul_2_code or survey_id equality
predicate ever appears. -/
theorem c4_gaul2_and_survey_id_filters_never_reach_the_query :
    (getDatasetLandings ⟨"Test Admin Key", "", adminPerms, true⟩
        zanzibarEnv allFiltersParams).1 =
      HResp.jsonOk
        ("SELECT * FROM read_parquet(" ++ squo ++
          "/tmp/peskas_cache/zanzibar_validated_20250201000000.parquet" ++ squo ++
          ") WHERE \"landing_date\" >= ? AND \"landing_date\" <= ?" ++
          " AND \"gaul_1_code\" = ? AND \"catch_taxon\" = ? LIMIT 100000")
        [QVal.vdate ⟨2025, 1, 1⟩, QVal.vdate ⟨2025, 2, 28⟩,
         QVal.vstr "1696", QVal.vstr "SKJ"] ∧
    (∀ edc df dt g1 ct,
      (buildConds edc df dt g1 none ct none).1 ⊆
        ["\"" ++ edc ++ "\" >= ?", "\"" ++ edc ++ "\" <= ?",
         "\"gaul_1_code\" = ?", "\"catch_taxon\" = ?"]) := by
  constructor
  · decide
  · intro edc df dt g1 ct
    cases df <;> cases dt <;> cases g1 <;> cases ct <;>
      simp [buildConds, condStep, List.subset_def]

/-- A conditions/params append step produces the same condition text for
two optional values with the same presence. -/
theorem condStep_fst {α β : Type} (cond : String) (f : α → QVal) (g : β → QVal)
    (o1 : Option α) (o2 : Option β) (cp1 cp2 : List String × List QVal)
    (ho : o1.isSome = o2.isSome) (h : cp1.1 = cp2.1) :
    (condStep cond f o1 cp1).1 = (condStep cond g o2 cp2).1 := by
  cases o1 <;> cases o2 <;> simp_all [condStep]

/-- The WHERE-condition list built by query_parquet depends only on
which filters are present, never on their values. -/
theorem buildConds_fst (edc : String) (df1 dt1 df2 dt2 : Option PyDate)
    (g11 g21 ct1 si1 g12 g22 ct2 si2 : Option String)
    (h1 : df1.isSome = df2.isSome) (h2 : dt1.isSome = dt2.isSome)
    (h3 : g11.isSome = g12.isSome) (h4 : g21.isSome = g22.isSome)
    (h5 : ct1.isSome = ct2.isSome) (h6 : si1.isSome = si2.isSome) :
    (buildConds edc df1 dt1 g11 g21 ct1 si1).1 =
    (buildConds edc df2 dt2 g12 g22 ct2 si2).1 := by
  unfold buildConds
  apply condStep_fst _ _ _ _ _ _ _ h6
  apply condStep_fst _ _ _ _ _ _ _ h5
  apply condStep_fst _ _ _ _ _ _ _ h4
  apply condStep_fst _ _ _ _ _ _ _ h3
  apply condStep_fst _ _ _ _ _ _ _ h2
  apply condStep_fst _ _ _ _ _ _ _ h1
  rfl

/-- Two query_parquet calls differing only in the values of filters
that are supplied in both produce the same SQL text (the values travel
only in the bound-parameter list). -/
theorem build_map_fst (st : Settings) (fs : ParquetStore) (path : String)
    (dc : Option String) (cols : Option (List String)) (lim : Option Int)
    (df1 dt1 df2 dt2 : Option PyDate)
    (g11 g21 ct1 si1 g12 g22 ct2 si2 : Option String)
    (h1 : df1.isSome = df2.isSome) (h2 : dt1.isSome = dt2.isSome)
    (h3 : g11.isSome = g12.isSome) (h4 : g21.isSome = g22.isSome)
    (h5 : ct1.isSome = ct2.isSome) (h6 : si1.isSome = si2.isSome) :
    (queryParquetBuild st fs path dc df1 dt1 g11 g21 ct1 si1 cols lim).map Prod.fst =
    (queryParquetBuild st fs path dc df2 dt2 g12 g22 ct2 si2 cols lim).map Prod.fst := by
  have hc := buildConds_fst (effDateColumn st dc) df1 dt1 df2 dt2
    g11 g21 ct1 si1 g12 g22 ct2 si2 h1 h2 h3 h4 h5 h6
  cases hce : computeColExpr fs path cols with
  | error e => simp [queryParquetBuild, hce]
  | ok ce =>
    by_cases hex : (lookupS fs path).isNone
    · simp [queryParquetBuild, hce, hex]
    · by_cases hv : validColumnName (effDateColumn st dc)
      · cases lim with
        | none => simp [queryParquetBuild, hce, hex, hv, hc, Except.map]
        | some l =>
          by_cases hl : l < 1
          · simp [queryParquetBuild, hce, hex, hv, hl]
          · simp [queryParquetBuild, hce, hex, hv, hl, hc, Except.map]
      · simp [queryParquetBuild, hce, hex, hv]

/-- Every column surviving _sanitize_columns passed the
_validate_column_name allow-list. -/
theorem sanitizeColumns_valid (cs avail : List String) (c : String)
    (h : c ∈ sanitizeColumns cs avail) : validColumnName c = true := by
  induction cs with
  | nil => simp [sanitizeColumns] at h
  | cons a rest ih =>
    by_cases hv : validColumnName a
    · by_cases hm : avail.contains a
      · simp only [sanitizeColumns, hv, hm, if_true, List.mem_cons] at h
        rcases h with rfl | h
        · exact hv
        · exact ih h
      · simp only [sanitizeColumns, hv, hm, if_true, if_false] at h
        exact ih h
    · simp only [sanitizeColumns, hv, if_false] at h
      exact ih h

/-- A date column rejected by the allow-list never yields a successful
query build. -/
theorem build_invalid_datecol (st : Settings) (fs : ParquetStore) (path : String)
    (dc : Option String) (df dt : Option PyDate)
    (g1 g2 ct si : Option String) (cols : Option (List String)) (lim : Option Int)
    (h : validColumnName (effDateColumn st dc) = false) :
    (queryParquetBuild st fs path dc df dt g1 g2 ct si cols lim).toOption = none := by
  cases hce : computeColExpr fs path cols with
  | error e => simp [queryParquetBuild, hce, Except.toOption]
  | ok ce =>
    by_cases hex : (lookupS fs path).isNone
    · simp [queryParquetBuild, hce, hex, Except.toOption]
    · simp [queryParquetBuild, hce, hex, h, Except.toOption]

/-- Claim C5.  Security of the query builder: (1) two requests that
differ only in the supplied filter values (same filters present)
generate identical SQL text, the values travelling only as bound
parameters; (2) every column name interpolated into the projection has
passed the allow-list validator; (3) a date-column name failing the
allow-list never yields a successful build. -/
theorem c5_sql_text_independent_of_filter_values :
    (∀ (st : Settings) (fs : ParquetStore) (path : String) (dc : Option String)
        (cols : Option (List String)) (lim : Option Int)
        (df1 dt1 df2 dt2 : Option PyDate)
        (g11 g21 ct1 si1 g12 g22 ct2 si2 : Option String),
      df1.isSome = df2.isSome → dt1.isSome = dt2.isSome →
      g11.isSome = g12.isSome → g21.isSome = g22.isSome →
      ct1.isSome = ct2.isSome → si1.isSome = si2.isSome →
      (queryParquetBuild st fs path dc df1 dt1 g11 g21 ct1 si1 cols lim).map Prod.fst =
      (queryParquetBuild st fs path dc df2 dt2 g12 g22 ct2 si2 cols lim).map Prod.fst) ∧
    (∀ (cs avail : List String) (c : String),
      c ∈ sanitizeColumns cs avail → validColumnName c = true) ∧
    (∀ (st : Settings) (fs : ParquetStore) (path : String) (dc : Option String)
        (df dt : Option PyDate) (g1 g2 ct si : Option String)
        (cols : Option (List String)) (lim : Option Int),
      validColumnName (effDateColumn st dc) = false →
      (queryParquetBuild st fs path dc df dt g1 g2 ct si cols lim).toOption = none) :=
  ⟨fun st fs path dc cols lim df1 dt1 df2 dt2 g11 g21 ct1 si1 g12 g22 ct2 si2
      h1 h2 h3 h4 h5 h6 =>
    build_map_fst st fs path dc cols lim df1 dt1 df2 dt2 g11 g21 ct1 si1
      g12 g22 ct2 si2 h1 h2 h3 h4 h5 h6,
   fun cs avail c h => sanitizeColumns_valid cs avail c h,
   fun st fs path dc df dt g1 g2 ct si cols lim h =>
    build_invalid_datecol st fs path dc df dt g1 g2 ct si cols lim h⟩

/-- Witness for C5 at concrete inputs. -/
theorem c5_witness :
    (queryParquetBuild defaultSettings [("p", ["trip_id"])] "p" none
        (some ⟨2025, 1, 1⟩) (some ⟨2025, 2, 1⟩) (some "1696") (some "16961")
        (some "MZZ") (some "s1") none none).map Prod.fst =
    (queryParquetBuild defaultSettings [("p", ["trip_id"])] "p" none
        (some ⟨2024, 3, 9⟩) (some ⟨2024, 4, 5⟩) (some "9999") (some "88")
        (some "SKJ") (some "s2") none none).map Prod.fst ∧
    validColumnName "trip_id" = true ∧
    (queryParquetBuild defaultSettings [("p", ["trip_id"])] "p" (some "bad col")
        none none none none none none none none).toOption = none :=
  ⟨c5_sql_text_independent_of_filter_values.1 defaultSettings [("p", ["trip_id"])] "p"
      none none none (some ⟨2025, 1, 1⟩) (some ⟨2025, 2, 1⟩) (some ⟨2024, 3, 9⟩)
      (some ⟨2024, 4, 5⟩) (some "1696") (some "16961") (some "MZZ") (some "s1")
      (some "9999") (some "88") (some "SKJ") (some "s2") rfl rfl rfl rfl rfl rfl,
   c5_sql_text_independent_of_filter_values.2.1 ["trip_id"] ["trip_id"] "trip_id" (by decide),
   c5_sql_text_independent_of_filter_values.2.2 defaultSettings [("p", ["trip_id"])] "p"
      (some "bad col") none none none none none none none none (by decide)⟩

/-- Appending a fresh key to an association list makes it findable. -/
theorem lookupS_append_none {α : Type} (l : List (String × α)) (k : String) (v : α)
    (h : lookupS l k = none) : lookupS (l ++ [(k, v)]) k = some v := by
  induction l with
  | nil => simp [lookupS]
  | cons a rest ih =>
    obtain ⟨a1, a2⟩ := a
    by_cases hk : a1 = k
    · simp only [lookupS, if_pos hk] at h
      exact absurd h (by simp)
    · simp only [List.cons_append, lookupS, if_neg hk] at h ⊢
      exact ih h

/-- When the folder holds exactly two pattern-matching versioned files,
_get_latest_file selects the one with the greater timestamp, whatever
the listing order. -/
theorem latest_of_two (env : GcsEnv) (folder : String)
    (t1 : Nat) (f1 p1 : String) (t2 : Nat) (f2 p2 : String) (ht : t1 < t2)
    (hv : versionedFiles env.blobs folder = [(t1, f1, p1), (t2, f2, p2)] ∨
          versionedFiles env.blobs folder = [(t2, f2, p2), (t1, f1, p1)]) :
    getLatestFile env folder = .ok p2 := by
  unfold getLatestFile
  rcases hv with h | h <;> rw [h] <;>
    simp [sortDescTriples, insertDesc, tripleGt, ht, Nat.lt_asymm ht]

/-- After a successful download_parquet, re-resolving the same
(country, status) against the unchanged bucket returns the same cached
local path without downloading. -/
theorem download_idempotent (env : GcsEnv) (country : String)
    (status : DatasetStatus) (path : String) (env2 : GcsEnv) (dl : Bool)
    (h : downloadParquet env country status = .ok (path, env2, dl)) :
    downloadParquet env2 country status = .ok (path, env2, false) := by
  obtain ⟨b, bl, lf⟩ := env
  unfold downloadParquet at h ⊢
  cases hg : getLatestFile ⟨b, bl, lf⟩ (buildObjectPath country status) with
  | error m => rw [hg] at h; simp at h
  | ok latest =>
    rw [hg] at h
    dsimp only at h
    by_cases hc : (lookupS lf (localPathFor country status latest)).isSome
    · rw [if_pos hc] at h
      simp only [Except.ok.injEq, Prod.mk.injEq] at h
      obtain ⟨hp, he, hd⟩ := h
      subst hp
      subst he
      rw [hg]
      dsimp only
      rw [if_pos hc]
    · rw [if_neg hc] at h
      cases hb : lookupS bl latest with
      | none => rw [hb] at h; simp at h
      | some schema =>
        rw [hb] at h
        simp only [Except.ok.injEq, Prod.mk.injEq] at h
        obtain ⟨hp, he, hd⟩ := h
        subst hp
        subst he
        have hg2 : getLatestFile
            ⟨b, bl, lf ++ [(localPathFor country status latest, schema)]⟩
            (buildObjectPath country status) = .ok latest := hg
        rw [hg2]
        dsimp only
        have hnone : lookupS lf (localPathFor country status latest) = none := by
          cases hcase : lookupS lf (localPathFor country status latest) with
          | none => rfl
          | some v => rw [hcase] at hc; simp at hc
        have happ := lookupS_append_none lf (localPathFor country status latest) schema hnone
        rw [happ]
        rfl

/-- Claim C6.  Snapshot resolution is monotonic and idempotent: with
exactly two pattern-matching files of timestamps T1 less than T2 in the
folder, resolution selects the T2 file; and re-resolving after a
successful download returns the same deterministic cached local path
with no further download. -/
theorem c6_snapshot_resolution_monotonic_and_idempotent :
    (∀ (env : GcsEnv) (folder : String) (t1 : Nat) (f1 p1 : String)
        (t2 : Nat) (f2 p2 : String), t1 < t2 →
      (versionedFiles env.blobs folder = [(t1, f1, p1), (t2, f2, p2)] ∨
       versionedFiles env.blobs folder = [(t2, f2, p2), (t1, f1, p1)]) →
      getLatestFile env folder = .ok p2) ∧
    (∀ (env : GcsEnv) (country : String) (status : DatasetStatus)
        (path : String) (env2 : GcsEnv) (dl : Bool),
      downloadParquet env country status = .ok (path, env2, dl) →
      downloadParquet env2 country status = .ok (path, env2, false)) :=
  ⟨fun env folder t1 f1 p1 t2 f2 p2 ht hv =>
    latest_of_two env folder t1 f1 p1 t2 f2 p2 ht hv,
   fun env country status path env2 dl h =>
    download_idempotent env country status path env2 dl h⟩

/-- Witness for C6 on the spec scenario folder. -/
theorem c6_witness :
    getLatestFile twoSnapshotsEnv "zanzibar/validated/" =
      .ok "zanzibar/validated/trips-validated__20250201000000_bbb222__.parquet" ∧
    downloadParquet twoSnapshotsEnvCached "zanzibar" .validated =
      .ok ("/tmp/peskas_cache/zanzibar_validated_20250201000000.parquet",
        twoSnapshotsEnvCached, false) :=
  ⟨c6_snapshot_resolution_monotonic_and_idempotent.1 twoSnapshotsEnv
      "zanzibar/validated/" 20250101000000
      "trips-validated__20250101000000_aaa111__.parquet"
      "zanzibar/validated/trips-validated__20250101000000_aaa111__.parquet"
      20250201000000
      "trips-validated__20250201000000_bbb222__.parquet"
      "zanzibar/validated/trips-validated__20250201000000_bbb222__.parquet"
      (by decide) (Or.inl (by decide)),
   c6_snapshot_resolution_monotonic_and_idempotent.2 twoSnapshotsEnv
      "zanzibar" .validated
      "/tmp/peskas_cache/zanzibar_validated_20250201000000.parquet"
      twoSnapshotsEnvCached true (by decide)⟩

/-- A limit below 1 never produces a successful query build. -/
theorem build_low_limit_never_ok (st : Settings) (fs : ParquetStore) (path : String)
    (dc : Option String) (df dt : Option PyDate) (g1 g2 ct si : Option String)
    (cols : Option (List String)) (l : Int) (hl : l < 1) :
    ∀ r, queryParquetBuild st fs path dc df dt g1 g2 ct si cols (some l) ≠ .ok r := by
  intro r
  cases hce : computeColExpr fs path cols with
  | error e => simp [queryParquetBuild, hce]
  | ok ce =>
    by_cases hex : (lookupS fs path).isNone
    · simp [queryParquetBuild, hce, hex]
    · by_cases hv : validColumnName (effDateColumn st dc)
      · simp [queryParquetBuild, hce, hex, hv, hl]
      · simp [queryParquetBuild, hce, hex, hv]

/-- Every successfully built query ends with a LIMIT clause equal to
the clamped effective limit. -/
theorem build_ok_limit_suffix (st : Settings) (fs : ParquetStore) (path : String)
    (dc : Option String) (df dt : Option PyDate) (g1 g2 ct si : Option String)
    (cols : Option (List String)) (lim : Option Int) (t : String) (ps : List QVal)
    (h : queryParquetBuild st fs path dc df dt g1 g2 ct si cols lim = .ok (t, ps)) :
    ∃ pre, t = pre ++ " LIMIT " ++ toString (effectiveLimit st lim) := by
  unfold queryParquetBuild at h
  cases hce : computeColExpr fs path cols with
  | error e => rw [hce] at h; simp at h
  | ok ce =>
    rw [hce] at h
    dsimp only at h
    by_cases hex : (lookupS fs path).isNone
    · rw [if_pos hex] at h; simp at h
    · rw [if_neg hex] at h
      by_cases hv : validColumnName (effDateColumn st dc)
      · rw [if_neg (by simp [hv])] at h
        cases lim with
        | none =>
          simp only [Except.ok.injEq, Prod.mk.injEq] at h
          exact ⟨_, h.1.symm⟩
        | some l =>
          dsimp only at h
          by_cases hl : l < 1
          · rw [if_pos hl] at h; simp at h
          · rw [if_neg hl] at h
            simp only [Except.ok.injEq, Prod.mk.injEq] at h
            exact ⟨_, h.1.symm⟩
      · rw [if_pos (by simp [hv])] at h; simp at h

/-- Claim C7.  A supplied limit below 1 is a hard validation error
(never a successful, silently clamped query); otherwise the LIMIT
appended to the query equals min(supplied-or-default, absolute
maximum). -/
theorem c7_limit_validation_and_clamp :
    (∀ (st : Settings) (fs : ParquetStore) (path : String) (dc : Option String)
        (df dt : Option PyDate) (g1 g2 ct si : Option String)
        (cols : Option (List String)) (l : Int), l < 1 →
      ∀ r, queryParquetBuild st fs path dc df dt g1 g2 ct si cols (some l) ≠ .ok r) ∧
    (∀ (st : Settings) (l : Int), 1 ≤ l →
      effectiveLimit st (some l) = min l st.max_rows_limit) ∧
    (∀ st : Settings, effectiveLimit st none = min st.max_rows_default st.max_rows_limit) ∧
    (∀ (st : Settings) (fs : ParquetStore) (path : String) (dc : Option String)
        (df dt : Option PyDate) (g1 g2 ct si : Option String)
        (cols : Option (List String)) (lim : Option Int) (t : String) (ps : List QVal),
      queryParquetBuild st fs path dc df dt g1 g2 ct si cols lim = .ok (t, ps) →
      ∃ pre, t = pre ++ " LIMIT " ++ toString (effectiveLimit st lim)) := by
  refine ⟨fun st fs path dc df dt g1 g2 ct si cols l hl =>
      build_low_limit_never_ok st fs path dc df dt g1 g2 ct si cols l hl,
    fun st l hl => ?_,
    fun st => rfl,
    fun st fs path dc df dt g1 g2 ct si cols lim t ps h =>
      build_ok_limit_suffix st fs path dc df dt g1 g2 ct si cols lim t ps h⟩
  have h0 : l ≠ 0 := by omega
  simp [effectiveLimit, h0]

/-- Witness for C7 at concrete inputs. -/
theorem c7_witness :
    (queryParquetBuild defaultSettings [("p", ["trip_id"])] "p" none
        none none none none none none none (some 0) ≠
      .ok ("SELECT * FROM read_parquet(" ++ squo ++ "p" ++ squo ++ ") LIMIT 100000", [])) ∧
    effectiveLimit defaultSettings (some 5) = min 5 defaultSettings.max_rows_limit ∧
    effectiveLimit defaultSettings none =
      min defaultSettings.max_rows_default defaultSettings.max_rows_limit ∧
    (∃ pre, ("SELECT * FROM read_parquet(" ++ squo ++ "p" ++ squo ++ ") LIMIT 100000") =
      pre ++ " LIMIT " ++ toString (effectiveLimit defaultSettings none)) :=
  ⟨c7_limit_validation_and_clamp.1 defaultSettings [("p", ["trip_id"])] "p"
      none none none none none none none none 0 (by decide) _,
   c7_limit_validation_and_clamp.2.1 defaultSettings 5 (by decide),
   c7_limit_validation_and_clamp.2.2.1 defaultSettings,
   c7_limit_validation_and_clamp.2.2.2 defaultSettings [("p", ["trip_id"])] "p"
      none none none none none none none none none
      ("SELECT * FROM read_parquet(" ++ squo ++ "p" ++ squo ++ ") LIMIT 100000") []
      (by decide)⟩

/-- The _sanitize_columns loop computes exactly the order-preserving
filter of the requested columns by allow-list membership and schema
membership. -/
theorem sanitize_eq_filter (cs avail : List String) :
    sanitizeColumns cs avail =
      cs.filter (fun c => validColumnName c && avail.contains c) := by
  induction cs with
  | nil => rfl
  | cons a rest ih =>
    by_cases hv : validColumnName a
    · by_cases hm : avail.contains a
      · simp [sanitizeColumns, List.filter_cons, hv, hm, ih]
      · simp [sanitizeColumns, List.filter_cons, hv, hm, ih]
    · simp [sanitizeColumns, List.filter_cons, hv, ih]

/-- The column-selection block of query_parquet projects exactly the
sanitized columns, falling back to star when none survives. -/
theorem colExpr_spec (fs : ParquetStore) (path : String) (cs avail : List String)
    (hav : lookupS fs path = some avail) (hcs : cs ≠ []) :
    computeColExpr fs path (some cs) =
      .ok (if sanitizeColumns cs avail = [] then "*"
           else String.intercalate ", "
             ((sanitizeColumns cs avail).map (fun c => "\"" ++ c ++ "\""))) := by
  unfold computeColExpr
  dsimp only
  rw [if_pos hcs, hav]
  dsimp only
  by_cases hs : sanitizeColumns cs avail = [] <;> simp [hs]

/-- Claim C8.  The executed projection is exactly the requested columns
that pass the allow-list and exist in the schema, in request order;
columns absent from the schema are silently dropped, and when nothing
survives the projection falls back to star. -/
theorem c8_projection_is_filtered_request_order :
    (∀ cs avail : List String,
      sanitizeColumns cs avail =
        cs.filter (fun c => validColumnName c && avail.contains c)) ∧
    (∀ (fs : ParquetStore) (path : String) (cs avail : List String),
      lookupS fs path = some avail → cs ≠ [] →
      computeColExpr fs path (some cs) =
        .ok (if sanitizeColumns cs avail = [] then "*"
             else String.intercalate ", "
               ((sanitizeColumns cs avail).map (fun c => "\"" ++ c ++ "\"")))) :=
  ⟨fun cs avail => sanitize_eq_filter cs avail,
   fun fs path cs avail hav hcs => colExpr_spec fs path cs avail hav hcs⟩

/-- Witness for C8: the spec scenario trip_id, bogus_column. -/
theorem c8_witness :
    sanitizeColumns ["trip_id", "bogus_column"] ["trip_id", "landing_date"] =
      List.filter (fun c => validColumnName c && List.contains ["trip_id", "landing_date"] c)
        ["trip_id", "bogus_column"] ∧
    computeColExpr [("p", ["trip_id", "landing_date"])] "p"
        (some ["trip_id", "bogus_column"]) = .ok "\"trip_id\"" :=
  ⟨c8_projection_is_filtered_request_order.1 ["trip_id", "bogus_column"]
      ["trip_id", "landing_date"],
   (c8_projection_is_filtered_request_order.2 [("p", ["trip_id", "landing_date"])] "p"
      ["trip_id", "bogus_column"] ["trip_id", "landing_date"]
      (by decide) (by decide)).trans (by decide)⟩

/-- No record value produced by get_as_records is a NaN or infinite
float. -/
theorem getAsRecords_no_nonfinite (df : DataFrame) (rec : List (String × Cell))
    (kv : String × Cell) (hrec : rec ∈ getAsRecords df) (hkv : kv ∈ rec) :
    isBadFloat kv.2 = false := by
  unfold getAsRecords at hrec
  by_cases he : df.rows.isEmpty
  · rw [if_pos he] at hrec; simp at hrec
  · rw [if_neg he] at hrec
    dsimp only at hrec
    rw [List.mem_map] at hrec
    obtain ⟨rec0, _, hr⟩ := hrec
    subst hr
    rw [List.mem_map] at hkv
    obtain ⟨kv0, _, hk⟩ := hkv
    subst hk
    obtain ⟨k0, v0⟩ := kv0
    cases v0 with
    | flt f => cases f <;> rfl
    | null => rfl
    | intv n => rfl
    | strv s => rfl
    | dtv d => rfl

/-- Claim C9.  JSON records contain no NaN or infinite float (all
become null); datetime-column values are rendered as ISO-8601 strings;
an empty CSV result with an explicit column list emits a header-only
body, and with no projection an empty body. -/
theorem c9_serialization_sanitizes_output :
    (∀ (df : DataFrame) (rec : List (String × Cell)) (kv : String × Cell),
      rec ∈ getAsRecords df → kv ∈ rec → isBadFloat kv.2 = false) ∧
    (∀ d : PyDateTime,
      finalPassCell (replaceNonFinite (convCell true (Cell.dtv d))) =
        Cell.strv (isoDateTime d)) ∧
    (∀ (df : DataFrame) (cs : List String), df.rows = [] → cs ≠ [] →
      streamCsvRender df (some cs) = csvHeaderLine cs) ∧
    (∀ df : DataFrame, df.rows = [] → streamCsvRender df none = "") := by
  refine ⟨fun df rec kv hrec hkv => getAsRecords_no_nonfinite df rec kv hrec hkv,
    fun d => rfl, fun df cs h hcs => ?_, fun df h => ?_⟩
  · simp [streamCsvRender, h, hcs]
  · simp [streamCsvRender, h]

/-- Witness for C9 at concrete frames. -/
theorem c9_witness :
    isBadFloat (("x", Cell.null) : String × Cell).2 = false ∧
    finalPassCell (replaceNonFinite (convCell true (Cell.dtv ⟨2025, 1, 15, 0, 0, 0⟩))) =
      Cell.strv "2025-01-15T00:00:00" ∧
    streamCsvRender emptyFrame (some ["trip_id", "landing_date"]) =
      csvHeaderLine ["trip_id", "landing_date"] ∧
    streamCsvRender emptyFrame none = "" :=
  ⟨c9_serialization_sanitizes_output.1 nanFrame [("x", Cell.null)] ("x", Cell.null)
      (by decide) (by decide),
   (c9_serialization_sanitizes_output.2.1 ⟨2025, 1, 15, 0, 0, 0⟩).trans (by decide),
   c9_serialization_sanitizes_output.2.2.1 emptyFrame ["trip_id", "landing_date"]
      rfl (by decide),
   c9_serialization_sanitizes_output.2.2.2 emptyFrame rfl⟩

/-- The outcome of validate_query_params does not depend on
permissions.max_limit (the limit check is unreachable for
DatasetQueryParams inputs). -/
theorem validator_ignores_max_limit (perms : APIKeyPermissions)
    (params : DatasetQueryParams) (ep : Option String) (m : Option Int) :
    validateQueryParams { perms with max_limit := m } params ep =
    validateQueryParams { perms with max_limit := none } params ep := by
  cases perms
  rfl

/-- Claim C10.  When the request omits limit, the validator limit check
cannot fire and the validator outcome is independent of
permissions.max_limit; the executed query is then bounded by the
default of 100000 rows, and every executed query carries a LIMIT of at
most the absolute maximum 1000000. -/
theorem c10_omitted_limit :
    (∀ perms : APIKeyPermissions, limitCheck perms none = none) ∧
    (∀ (perms : APIKeyPermissions) (params : DatasetQueryParams)
        (ep : Option String) (m : Option Int),
      params.limit = none →
      validateQueryParams { perms with max_limit := m } params ep =
      validateQueryParams { perms with max_limit := none } params ep) ∧
    effectiveLimit defaultSettings none = 100000 ∧
    (∀ l : Option Int, effectiveLimit defaultSettings l ≤ 1000000) ∧
    (∀ (fs : ParquetStore) (path : String) (dc : Option String)
        (df dt : Option PyDate) (g1 g2 ct si : Option String)
        (cols : Option (List String)) (t : String) (ps : List QVal),
      queryParquetBuild defaultSettings fs path dc df dt g1 g2 ct si cols none = .ok (t, ps) →
      ∃ pre, t = pre ++ " LIMIT 100000") := by
  refine ⟨fun perms => rfl,
    fun perms params ep m _ => validator_ignores_max_limit perms params ep m,
    rfl,
    fun l => min_le_right _ _,
    fun fs path dc df dt g1 g2 ct si cols t ps h => ?_⟩
  obtain ⟨pre, hp⟩ := build_ok_limit_suffix defaultSettings fs path dc df dt g1 g2 ct si
    cols none t ps h
  have hlit : (" LIMIT " ++ toString (effectiveLimit defaultSettings none) : String) =
      " LIMIT 100000" := by decide
  exact ⟨pre, by rw [hp, String.append_assoc, hlit]⟩

/-- Witness for C10 at concrete inputs. -/
theorem c10_witness :
    limitCheck { noPermissions with max_limit := some 10 } none = none ∧
    validateQueryParams { restrictedPerms with max_limit := some 10 } noDatesParams none =
      validateQueryParams { restrictedPerms with max_limit := none } noDatesParams none ∧
    effectiveLimit defaultSettings none = 100000 ∧
    effectiveLimit defaultSettings (some 999999999) ≤ 1000000 ∧
    (∃ pre, ("SELECT * FROM read_parquet(" ++ squo ++ "p" ++ squo ++ ") LIMIT 100000") =
      pre ++ " LIMIT 100000") :=
  ⟨c10_omitted_limit.1 { noPermissions with max_limit := some 10 },
   c10_omitted_limit.2.1 restrictedPerms noDatesParams none (some 10) rfl,
   c10_omitted_limit.2.2.1,
   c10_omitted_limit.2.2.2.1 (some 999999999),
   c10_omitted_limit.2.2.2.2 [("p", ["trip_id"])] "p" none none none none none
      none none none ("SELECT * FROM read_parquet(" ++ squo ++ "p" ++ squo ++ ") LIMIT 100000")
      [] (by decide)⟩

end Peskas
